import Mathlib

/-!
Verification of the STS3215 servo driver core: packet codec (encode /
checksum / decode), the write_position register helper, and the per-servo
state machine (telemetry refresh, move-command queue).  Definitions are a
shallow embedding of the Rust sources (src/comm.rs, src/lerobot/robot.rs,
src/info.rs); bytes are Nat values reduced mod 256 where the source uses
wrapping u8 arithmetic, slices are Lists, and Rust index-out-of-bounds
panics are modelled by an explicit panic outcome.
-/

namespace Sts3215

/-- Instruction code constants from src/comm.rs. -/
def PING_ID : Nat := 0x01

def READ_DATA_ID : Nat := 0x02

def WRITE_DATA_ID : Nat := 0x03

def GOAL_POSITION_REGISTER : Nat := 0x2A

/-- Bitwise NOT of a byte value (the Rust `!counter` on u8). -/
def bnot (b : Nat) : Nat := 255 - b % 256

/-- The wrapping (mod 256) sum loop from Command::calculate_checksum. -/
def wrapSum (l : List Nat) : Nat := l.foldl (fun a v => (a + v) % 256) 0

/-- Command::calculate_checksum: bitwise NOT of the wrapping sum of
buffer bytes at indices 2 .. length-1 (the Rust loop `for index in 2..length`). -/
def calculate_checksum (buffer : List Nat) (length : Nat) : Nat :=
  bnot (wrapSum ((buffer.take length).drop 2))

/-- The Command enum from src/comm.rs: Ping(id), Read(id, addr, reply_len),
Write(id, addr, data). -/
inductive Command where
  | Ping : Nat → Command
  | Read : Nat → Nat → Nat → Command
  | Write : Nat → Nat → List Nat → Command

/-- Appending the trailing checksum byte: in write_buffer the checksum is
computed over the already-written bytes 2 .. checksum_index-1 and stored at
checksum_index. -/
def appendChecksum (front : List Nat) : List Nat :=
  front ++ [calculate_checksum front front.length]

/-- Command::write_buffer from src/comm.rs: header 0xFF 0xFF, id, length
byte, instruction code, instruction-specific fields, trailing checksum.
The Write length byte is `(3 + data.len()) as u8`, hence the mod 256. -/
def Command.write_buffer : Command → List Nat
  | .Ping servo_id =>
      appendChecksum [0xFF, 0xFF, servo_id, 0x02, PING_ID]
  | .Read servo_id addr reply_length =>
      appendChecksum [0xFF, 0xFF, servo_id, 0x04, READ_DATA_ID, addr, reply_length]
  | .Write servo_id addr data =>
      appendChecksum ([0xFF, 0xFF, servo_id, (3 + data.length) % 256, WRITE_DATA_ID, addr] ++ data)

/-- The ServoError variants used by the core (crate error enum). -/
inductive ServoError where
  | WriteError
  | ReadError
  | IOError
  | InvalidHeader : Nat → Nat → ServoError
  | ChecksumMismatch : Nat → Nat → ServoError
  | StatusError : Nat → ServoError
  | CommandOverflow
deriving DecidableEq

deriving instance DecidableEq for Except

/-- Outcome of CommandResponse::parse_response: a parsed reply
(id, status, data slice), a ServoError, or a Rust panic
(index out of bounds on the borrowed buffer). -/
inductive ParseOutcome where
  | ok : Nat → Nat → List Nat → ParseOutcome
  | err : ServoError → ParseOutcome
  | panic : ParseOutcome
deriving DecidableEq

/-- CommandResponse::parse_response from src/comm.rs, with Rust slice
indexing panics made explicit.  Note two peculiarities kept faithful to the
source: the recomputed checksum is `calculate_checksum(buffer, length)`
(summing indices 2..length, where length is the reply length byte), and the
rejection test is `!calculated_checksum == checksum`, which by Rust
precedence compares the bitwise NOT of the recomputation with the received
byte.  The error branch constructs InvalidHeader(buffer[0], buffer[1]) and
therefore reads buffer[1] even when buffer[0] already differs from 0xFF. -/
def parse_response (b : List Nat) : ParseOutcome :=
  match b.get? 0 with
  | none => .panic
  | some b0 =>
    if b0 ≠ 0xFF then
      match b.get? 1 with
      | none => .panic
      | some b1 => .err (.InvalidHeader b0 b1)
    else
      match b.get? 1 with
      | none => .panic
      | some b1 =>
        if b1 ≠ 0xFF then .err (.InvalidHeader b0 b1)
        else
          match b.get? 2, b.get? 3, b.get? 4 with
          | some id, some length, some status =>
            match b.get? (3 + length) with
            | none => .panic
            | some checksum =>
              let calculated_checksum := calculate_checksum b length
              if bnot calculated_checksum = checksum then
                .err (.ChecksumMismatch calculated_checksum checksum)
              else if length < 2 then .panic
              else .ok id status ((b.drop 5).take (length - 2))
          | _, _, _ => .panic

/-- Little-endian byte pair of a u16 (Rust to_le_bytes). -/
def u16_le (x : Nat) : List Nat := [x % 256, x / 256 % 256]

/-- The payload assembled by write_position in src/comm.rs: position bytes,
then speed bytes when the speed option is set, then acceleration bytes when
the acc option is set. -/
def write_position_data (position : Nat) (speed acc : Option Nat) : List Nat :=
  u16_le position
    ++ (match speed with | some s => u16_le s | none => [])
    ++ (match acc with | some a => u16_le a | none => [])

/-- The full packet written by write_position: a Write command to the goal
position register carrying the assembled payload. -/
def write_position_packet (servo_id position : Nat) (speed acc : Option Nat) : List Nat :=
  Command.write_buffer (.Write servo_id GOAL_POSITION_REGISTER (write_position_data position speed acc))

/-- ServoPositionCommand from src/lerobot/robot.rs. -/
structure ServoPositionCommand where
  id : Nat
  position : Nat
  speed : Option Nat
  acc : Option Nat
deriving DecidableEq

/-- ServoInfo from src/lerobot/robot.rs: the cached telemetry snapshot. -/
structure ServoInfo where
  id : Nat := 0
  position : Nat := 0
  goal_position : Nat := 0
  speed : Nat := 0
  temperature : Nat := 0
  load : Nat := 0
  voltage : Nat := 0
  current : Nat := 0
  is_moving : Bool := false
  has_error : Bool := false
deriving DecidableEq

/-- ServoState from src/lerobot/robot.rs.  The const generic queue capacity
of the heapless vector is carried as an explicit field; the servo_ids and
infos arrays become lists of equal length. -/
structure ServoState where
  infos : List ServoInfo
  servo_ids : List Nat
  queue_capacity : Nat
  queued_commands : List ServoPositionCommand
deriving DecidableEq

/-- One tick's worth of register-read outcomes for one actuator: the results
the Register Access Layer wrappers (read_position, read_speed, ...) return
over the transport, each either a value or a ServoError. -/
structure RegisterReads where
  position : Except ServoError Nat
  speed : Except ServoError Nat
  temperature : Except ServoError Nat
  load : Except ServoError Nat
  voltage : Except ServoError Nat
  current : Except ServoError Nat
  moving : Except ServoError Bool
  error : Except ServoError Bool

/-- Rust Result::unwrap_or. -/
def unwrapOr {α : Type} (r : Except ServoError α) (d : α) : α :=
  match r with
  | .ok v => v
  | .error _ => d

/-- The ServoInfo record that read_servo_info builds from one actuator's
register reads, with the unwrap_or defaults of the source. -/
def freshInfo (reads : RegisterReads) (servo_id : Nat) : ServoInfo :=
  { id := servo_id
    position := unwrapOr reads.position 0
    goal_position := unwrapOr reads.position 0
    speed := unwrapOr reads.speed 0
    temperature := unwrapOr reads.temperature 0
    load := unwrapOr reads.load 0
    voltage := unwrapOr reads.voltage 0
    current := unwrapOr reads.current 0
    is_moving := unwrapOr reads.moving false
    has_error := unwrapOr reads.error true }

/-- read_servo_info from src/lerobot/robot.rs: every register read is
unwrap_or-defaulted (position/speed/temperature/load/voltage/current to 0,
is_moving to false, has_error to true) and the goal_position field is set to
the freshly read position; the function always returns Ok. -/
def read_servo_info (reads : RegisterReads) (servo_id : Nat) : Except ServoError ServoInfo :=
  let position := unwrapOr reads.position 0
  let speed := unwrapOr reads.speed 0
  let temperature := unwrapOr reads.temperature 0
  let load := unwrapOr reads.load 0
  let voltage := unwrapOr reads.voltage 0
  let current := unwrapOr reads.current 0
  let is_moving := unwrapOr reads.moving false
  let has_error := unwrapOr reads.error true
  .ok
    { id := servo_id
      position := position
      goal_position := position
      speed := speed
      temperature := temperature
      load := load
      voltage := voltage
      current := current
      is_moving := is_moving
      has_error := has_error }

theorem read_servo_info_eq (reads : RegisterReads) (servo_id : Nat) :
    read_servo_info reads servo_id = .ok (freshInfo reads servo_id) := rfl

/-- The loop body of ServoState::update: for each (index, id) pair, the
cache entry at that index is replaced when read_servo_info returns Ok.  The
oracle gives the register-read outcomes the transport produced for the
actuator handled at each loop index this tick. -/
def updateLoop (oracle : Nat → RegisterReads) :
    List Nat → Nat → List ServoInfo → List ServoInfo
  | [], _, infos => infos
  | id :: rest, index, infos =>
      let infos2 :=
        match read_servo_info (oracle index) id with
        | .ok info => infos.set index info
        | .error _ => infos
      updateLoop oracle rest (index + 1) infos2

/-- ServoState::update from src/lerobot/robot.rs. -/
def ServoState.update (s : ServoState) (oracle : Nat → RegisterReads) : ServoState :=
  { s with infos := updateLoop oracle s.servo_ids 0 s.infos }

/-- Interpret a u16 bit pattern as an i16 (the Rust `as i16` cast). -/
def i16_of_u16 (g : Nat) : Int := if g < 32768 then (g : Int) else (g : Int) - 65536

/-- Two's-complement wrap of an i16 addition result (release-mode Rust
overflow semantics for the i16 `+` in send_relative_move_command). -/
def wrap_i16 (x : Int) : Int := (x + 32768) % 65536 - 32768

/-- ServoState::send_absolute_move_command from src/lerobot/robot.rs: reads
servo_ids[servo_index] (None models the Rust panic when the index is out of
bounds), sets the cached goal_position, then pushes the command onto the
bounded queue; a full queue yields CommandOverflow and the goal cache is
still updated (the write happens before the push in the source). -/
def ServoState.send_absolute_move_command (s : ServoState) (servo_index position : Nat)
    (speed acc : Option Nat) : Option (ServoState × Except ServoError Unit) :=
  match s.servo_ids.get? servo_index, s.infos.get? servo_index with
  | some servo_id, some info =>
      let infos2 := s.infos.set servo_index { info with goal_position := position }
      let cmd : ServoPositionCommand :=
        { id := servo_id, position := position, speed := speed, acc := acc }
      if s.queued_commands.length < s.queue_capacity then
        some ({ s with infos := infos2, queued_commands := s.queued_commands ++ [cmd] }, .ok ())
      else
        some ({ s with infos := infos2 }, .error .CommandOverflow)
  | _, _ => none

/-- ServoState::send_relative_move_command from src/lerobot/robot.rs: the
new goal is (goal_position as i16 + delta).rem_euclid(4096) as u16, computed
from the cached goal_position (not the measured position); the command
carrying the new goal is pushed onto the bounded queue. -/
def ServoState.send_relative_move_command (s : ServoState) (servo_index : Nat) (delta : Int)
    (speed acc : Option Nat) : Option (ServoState × Except ServoError Unit) :=
  match s.servo_ids.get? servo_index, s.infos.get? servo_index with
  | some servo_id, some info =>
      let new_position := wrap_i16 (i16_of_u16 info.goal_position + delta)
      let new_goal := (new_position % 4096).toNat
      let infos2 := s.infos.set servo_index { info with goal_position := new_goal }
      let cmd : ServoPositionCommand :=
        { id := servo_id, position := new_goal, speed := speed, acc := acc }
      if s.queued_commands.length < s.queue_capacity then
        some ({ s with infos := infos2, queued_commands := s.queued_commands ++ [cmd] }, .ok ())
      else
        some ({ s with infos := infos2 }, .error .CommandOverflow)
  | _, _ => none

/-- ServoState::process_queued_commands from src/lerobot/robot.rs.  The
port argument models the write_position call: for the flushed command it
returns either a transport or codec error, or the status byte of the parsed
reply.  The result carries the new state, the tick's Result, and the list
of commands actually flushed to the channel this tick.  Vec::pop removes
the most recently pushed element, so the queue tail is popped before the
port is touched; the popped command is never requeued. -/
def ServoState.process_queued_commands (s : ServoState)
    (port : ServoPositionCommand → Except ServoError Nat) :
    ServoState × Except ServoError Unit × List ServoPositionCommand :=
  match s.queued_commands.getLast? with
  | none => (s, .ok (), [])
  | some command =>
      let s2 := { s with queued_commands := s.queued_commands.dropLast }
      match port command with
      | .error e => (s2, .error e, [command])
      | .ok status =>
          if status = 0 then (s2, .ok (), [command])
          else (s2, .error (.StatusError status), [command])

/-! Concrete reply packets used to exercise the decoder.  wellFormedReply is
a reply (id 1, length 4, status 0, data 00 00) whose trailing byte is the
checksum the encoder formula produces; corruptedReply is the same packet
with the payload byte at offset 5 flipped from 0x00 to 0x01 and the
checksum byte left untouched. -/

def wellFormedReply : List Nat := [0xFF, 0xFF, 0x01, 0x04, 0x00, 0x00, 0x00, 0xFA]

def corruptedReply : List Nat := [0xFF, 0xFF, 0x01, 0x04, 0x00, 0x01, 0x00, 0xFA]

/-- Fold with wrapping byte addition equals the plain sum reduced mod 256. -/
theorem wrapFold (l : List Nat) : ∀ a : Nat,
    l.foldl (fun x v => (x + v) % 256) (a % 256) = (a + l.sum) % 256 := by
  induction l with
  | nil => intro a; simp
  | cons v t ih =>
      intro a
      simp only [List.foldl_cons, List.sum_cons]
      rw [Nat.mod_add_mod, ih (a + v), Nat.add_assoc]

theorem wrapSum_eq (l : List Nat) : wrapSum l = l.sum % 256 := by
  have h := wrapFold l 0
  simpa [wrapSum] using h

theorem appendChecksum_spec (front : List Nat) :
    appendChecksum front = front ++ [bnot ((front.drop 2).sum % 256)] := by
  simp [appendChecksum, calculate_checksum, List.take_length, wrapSum_eq]

theorem appendChecksum_last (front : List Nat) :
    appendChecksum front = (appendChecksum front).dropLast ++
      [bnot (((appendChecksum front).dropLast.drop 2).sum % 256)] := by
  rw [appendChecksum_spec, List.dropLast_concat]

/-- C2: for every instruction, the last byte written by encode is the
bitwise NOT of the mod-256 sum of the preceding packet bytes with the two
header bytes excluded; and encoding Write(id=1, addr=0x2A,
payload=[00,08,00,00,E8,03]) yields the exact 13 bytes
FF FF 01 09 03 2A 00 08 00 00 E8 03 D5. -/
theorem encode_checksum_is_not_of_sum :
    (∀ cmd : Command, cmd.write_buffer =
        cmd.write_buffer.dropLast ++ [bnot ((cmd.write_buffer.dropLast.drop 2).sum % 256)])
    ∧ Command.write_buffer (.Write 1 0x2A [0x00, 0x08, 0x00, 0x00, 0xE8, 0x03]) =
        [0xFF, 0xFF, 0x01, 0x09, 0x03, 0x2A, 0x00, 0x08, 0x00, 0x00, 0xE8, 0x03, 0xD5] := by
  constructor
  · intro cmd
    cases cmd <;> exact appendChecksum_last _
  · decide

/-- C1 (code bug evidence): wellFormedReply carries the encoder-formula
checksum and is accepted by parse_response; flipping the payload byte at
offset 5 without recomputing the checksum (corruptedReply) is still
accepted with the corrupted data — parse_response does not fail with
ChecksumMismatch even though the encoder-formula recomputation (0xF9)
disagrees with the transmitted checksum byte (0xFA).  The decoder sums the
wrong byte range (indices 2..length instead of 2..3+length) and, because
`!calculated_checksum == checksum` binds as `(!calculated) == checksum`,
rejects exactly when that comparison succeeds rather than when the
recomputation disagrees. -/
theorem decode_accepts_corrupted_payload :
    parse_response wellFormedReply = .ok 1 0 [0, 0]
    ∧ wellFormedReply.getLast? = some (bnot ((wellFormedReply.dropLast.drop 2).sum % 256))
    ∧ parse_response corruptedReply = .ok 1 0 [1, 0]
    ∧ bnot ((corruptedReply.dropLast.drop 2).sum % 256) = 0xF9
    ∧ corruptedReply.getLast? = some 0xFA := by decide

/-- C9 (counterexample): the one-byte inputs 0xFF and 0x00 and the empty
input do not begin with 0xFF 0xFF, yet parse_response panics on them
(index out of bounds) instead of failing with InvalidHeader: the header
test, or the construction of the InvalidHeader error value, reads
buffer[1]. -/
theorem decode_short_input_panics :
    parse_response [0xFF] = .panic
    ∧ parse_response [0x00] = .panic
    ∧ parse_response [] = .panic := by decide

/-- C9 (amended): for every input of length at least two whose first two
bytes are not exactly 0xFF 0xFF, parse_response fails with
InvalidHeader(byte0, byte1); inputs shorter than two bytes panic instead. -/
theorem decode_invalid_header (b0 b1 : Nat) (rest : List Nat)
    (h : ¬(b0 = 0xFF ∧ b1 = 0xFF)) :
    parse_response (b0 :: b1 :: rest) = .err (.InvalidHeader b0 b1) := by
  by_cases h0 : b0 = 0xFF
  · subst h0
    have h1 : b1 ≠ 0xFF := fun hh => h ⟨rfl, hh⟩
    simp [parse_response, h1]
  · simp [parse_response, h0]

theorem decode_invalid_header_witness :
    parse_response [0x00, 0x07, 0x09] = .err (.InvalidHeader 0x00 0x07) :=
  decode_invalid_header 0x00 0x07 [0x09] (by decide)

/-- C4 (counterexample): calling write_position with speed absent and
acceleration present is representable and produces a payload in which the
acceleration bytes E8 03 are appended directly after the two position
bytes, with no speed bytes in between. -/
theorem write_position_acc_without_speed :
    write_position_data 2048 none (some 1000) = [0x00, 0x08, 0xE8, 0x03]
    ∧ u16_le 1000 = [0xE8, 0x03]
    ∧ (write_position_data 2048 none (some 1000)).length = 4 := by decide

/-- C4 (amended): the payload is position bytes, then speed bytes when
present, then acceleration bytes when present, so its length is 2, 4 or 6;
the two optionals are independent — supplying acceleration without speed is
representable, the acceleration bytes then following the position bytes
directly (in the wire slot of the speed field). -/
theorem write_position_payload_shape (p : Nat) (s a : Option Nat) :
    ((write_position_data p s a).length = 2 ∨ (write_position_data p s a).length = 4
      ∨ (write_position_data p s a).length = 6)
    ∧ (write_position_data p s a).take 2 = u16_le p
    ∧ write_position_data p none none = u16_le p
    ∧ (∀ sv, write_position_data p (some sv) none = u16_le p ++ u16_le sv)
    ∧ (∀ av, write_position_data p none (some av) = u16_le p ++ u16_le av)
    ∧ (∀ sv av, write_position_data p (some sv) (some av) = u16_le p ++ u16_le sv ++ u16_le av) := by
  cases s <;> cases a <;>
    refine ⟨?_, rfl, rfl, fun sv => rfl, fun av => rfl, fun sv av => rfl⟩ <;>
    simp [write_position_data, u16_le]

/-- C8: a Write packet with payload length L in {2,4,6} has total length
7+L, carries (3+L) in the length byte at offset 3, and consists of the two
header bytes, id, length byte, the Write instruction code, the register
address, the payload verbatim, and a single trailing checksum byte. -/
theorem write_packet_shape (id addr : Nat) (data : List Nat)
    (h : data.length = 2 ∨ data.length = 4 ∨ data.length = 6) :
    (Command.write_buffer (.Write id addr data)).length = 7 + data.length
    ∧ (Command.write_buffer (.Write id addr data)).get? 0 = some 0xFF
    ∧ (Command.write_buffer (.Write id addr data)).get? 1 = some 0xFF
    ∧ (Command.write_buffer (.Write id addr data)).get? 2 = some id
    ∧ (Command.write_buffer (.Write id addr data)).get? 3 = some (3 + data.length)
    ∧ (Command.write_buffer (.Write id addr data)).get? 4 = some WRITE_DATA_ID
    ∧ (Command.write_buffer (.Write id addr data)).get? 5 = some addr
    ∧ ((Command.write_buffer (.Write id addr data)).drop 6).take data.length = data
    ∧ ∃ chk, Command.write_buffer (.Write id addr data) =
        [0xFF, 0xFF, id, 3 + data.length, WRITE_DATA_ID, addr] ++ data ++ [chk] := by
  have hm : (3 + data.length) % 256 = 3 + data.length := by
    rcases h with h | h | h <;> rw [h]
  refine ⟨?_, rfl, rfl, rfl, ?_, rfl, rfl, ?_, ?_⟩
  · simp only [Command.write_buffer, appendChecksum, List.length_append, List.length_cons]
    simp
    omega
  · have hr : (Command.write_buffer (.Write id addr data)).get? 3 =
        some ((3 + data.length) % 256) := rfl
    rw [hr, hm]
  · have hr : ((Command.write_buffer (.Write id addr data)).drop 6).take data.length =
        (data ++ [calculate_checksum
          ([0xFF, 0xFF, id, (3 + data.length) % 256, WRITE_DATA_ID, addr] ++ data)
          (([0xFF, 0xFF, id, (3 + data.length) % 256, WRITE_DATA_ID, addr] ++ data).length)]).take
          data.length := rfl
    rw [hr, List.take_append_of_le_length (Nat.le_refl data.length), List.take_length]
  · refine ⟨calculate_checksum ([0xFF, 0xFF, id, (3 + data.length) % 256, WRITE_DATA_ID, addr]
        ++ data) (([0xFF, 0xFF, id, (3 + data.length) % 256, WRITE_DATA_ID, addr] ++ data).length),
        ?_⟩
    simp [Command.write_buffer, appendChecksum, hm, List.append_assoc]

theorem write_packet_shape_witness :
    (Command.write_buffer (.Write 1 0x2A [0x00, 0x08, 0x00, 0x00, 0xE8, 0x03])).length =
        7 + ([0x00, 0x08, 0x00, 0x00, 0xE8, 0x03] : List Nat).length
    ∧ (Command.write_buffer (.Write 1 0x2A [0x00, 0x08, 0x00, 0x00, 0xE8, 0x03])).get? 0 =
        some 0xFF
    ∧ (Command.write_buffer (.Write 1 0x2A [0x00, 0x08, 0x00, 0x00, 0xE8, 0x03])).get? 1 =
        some 0xFF
    ∧ (Command.write_buffer (.Write 1 0x2A [0x00, 0x08, 0x00, 0x00, 0xE8, 0x03])).get? 2 =
        some 1
    ∧ (Command.write_buffer (.Write 1 0x2A [0x00, 0x08, 0x00, 0x00, 0xE8, 0x03])).get? 3 =
        some (3 + ([0x00, 0x08, 0x00, 0x00, 0xE8, 0x03] : List Nat).length)
    ∧ (Command.write_buffer (.Write 1 0x2A [0x00, 0x08, 0x00, 0x00, 0xE8, 0x03])).get? 4 =
        some WRITE_DATA_ID
    ∧ (Command.write_buffer (.Write 1 0x2A [0x00, 0x08, 0x00, 0x00, 0xE8, 0x03])).get? 5 =
        some 0x2A
    ∧ ((Command.write_buffer (.Write 1 0x2A [0x00, 0x08, 0x00, 0x00, 0xE8, 0x03])).drop 6).take
        ([0x00, 0x08, 0x00, 0x00, 0xE8, 0x03] : List Nat).length = [0x00, 0x08, 0x00, 0x00, 0xE8, 0x03]
    ∧ ∃ chk, Command.write_buffer (.Write 1 0x2A [0x00, 0x08, 0x00, 0x00, 0xE8, 0x03]) =
        [0xFF, 0xFF, 1, 3 + ([0x00, 0x08, 0x00, 0x00, 0xE8, 0x03] : List Nat).length,
          WRITE_DATA_ID, 0x2A] ++ [0x00, 0x08, 0x00, 0x00, 0xE8, 0x03] ++ [chk] :=
  write_packet_shape 1 0x2A [0x00, 0x08, 0x00, 0x00, 0xE8, 0x03] (by decide)

/-! Concrete states and oracles used by the state-machine claims. -/

/-- Register-read outcomes where every read, the very first included,
fails with a transport error. -/
def failAll : RegisterReads :=
  { position := .error .ReadError, speed := .error .ReadError
    temperature := .error .ReadError, load := .error .ReadError
    voltage := .error .ReadError, current := .error .ReadError
    moving := .error .ReadError, error := .error .ReadError }

/-- A one-actuator state whose cache holds distinctive nonzero telemetry. -/
def staleState : ServoState :=
  { infos := [{ id := 1, position := 123, goal_position := 200, speed := 7,
                temperature := 30, load := 1, voltage := 12, current := 2,
                is_moving := true, has_error := false }]
    servo_ids := [1], queue_capacity := 16, queued_commands := [] }

def infoS100 : ServoInfo := { id := 1, position := 555, goal_position := 100 }

/-- One actuator with measured position 555 and cached goal 100. -/
def s100 : ServoState :=
  { infos := [infoS100], servo_ids := [1], queue_capacity := 16, queued_commands := [] }

/-- The state after a relative move by -90 from s100. -/
def s100b : ServoState :=
  { infos := [{ id := 1, position := 555, goal_position := 10 }]
    servo_ids := [1], queue_capacity := 16
    queued_commands := [{ id := 1, position := 10, speed := none, acc := none }] }

/-- The post-state of a relative move on servo index 0, discarding the
Result (used to chain moves when stating the wraparound sequence). -/
def relStep (s : ServoState) (d : Int) : ServoState :=
  match s.send_relative_move_command 0 d none none with
  | some (s2, _) => s2
  | none => s

theorem updateLoop_get?_of_lt (oracle : Nat → RegisterReads) :
    ∀ (ids : List Nat) (k j : Nat) (infos : List ServoInfo), j < k →
      (updateLoop oracle ids k infos).get? j = infos.get? j := by
  intro ids
  induction ids with
  | nil => intro k j infos _; rfl
  | cons id rest ih =>
      intro k j infos hj
      simp only [updateLoop, read_servo_info_eq]
      rw [ih (k + 1) j _ (Nat.lt_succ_of_lt hj)]
      exact List.get?_set_ne _ _ (by omega)

theorem updateLoop_get?_fresh (oracle : Nat → RegisterReads) :
    ∀ (ids : List Nat) (k : Nat) (infos : List ServoInfo) (i : Nat) (h : i < ids.length),
      k + i < infos.length →
      (updateLoop oracle ids k infos).get? (k + i) =
        some (freshInfo (oracle (k + i)) (ids.get ⟨i, h⟩)) := by
  intro ids
  induction ids with
  | nil => intro k infos i h; exact absurd h (Nat.not_lt_zero i)
  | cons id rest ih =>
      intro k infos i h hlen
      simp only [updateLoop, read_servo_info_eq]
      cases i with
      | zero =>
          simp only [Nat.add_zero] at hlen ⊢
          rw [updateLoop_get?_of_lt oracle rest (k + 1) k _ (Nat.lt_succ_self k)]
          rw [List.get?_eq_getElem?]
          exact List.getElem?_set_eq_of_lt _ hlen
      | succ j =>
          have hk : k + (j + 1) = (k + 1) + j := by omega
          rw [hk, ih (k + 1) _ j (by simpa using h) (by simpa [hk] using hlen)]
          rfl

/-- The cache entry at every configured index after update: always the
freshly built record, transport failures included. -/
theorem update_get? (s : ServoState) (oracle : Nat → RegisterReads) (i : Nat)
    (h1 : i < s.servo_ids.length) (h2 : i < s.infos.length) :
    (s.update oracle).infos.get? i = some (freshInfo (oracle i) (s.servo_ids.get ⟨i, h1⟩)) := by
  have h := updateLoop_get?_fresh oracle s.servo_ids 0 s.infos i h1 (by omega)
  simpa [ServoState.update] using h

/-- C3 (counterexample): a tick in which every register read of the single
configured actuator fails with a transport error — the very first read
included — does not leave the cached ServoInfo unchanged: the entry is
overwritten with the unwrap_or defaults (zeros, moving false, error
true). -/
theorem update_transport_error_overwrites_cache :
    (staleState.update (fun _ => failAll)).infos.get? 0 =
      some { id := 1, position := 0, goal_position := 0, speed := 0, temperature := 0,
             load := 0, voltage := 0, current := 0, is_moving := false, has_error := true }
    ∧ (staleState.update (fun _ => failAll)).infos ≠ staleState.infos := by decide

/-- C3 (amended): during a telemetry refresh no register-read failure —
the first included — aborts an actuator's refresh or leaves its cache
stale: read_servo_info always returns Ok, each failed field falling back
to its default (0, moving false, has_error true), and update overwrites
every configured actuator's cache entry with that fresh record, continuing
through the whole actuator list. -/
theorem update_refresh_per_field_defaults (s : ServoState) (oracle : Nat → RegisterReads)
    (i : Nat) (h1 : i < s.servo_ids.length) (h2 : i < s.infos.length) :
    read_servo_info (oracle i) (s.servo_ids.get ⟨i, h1⟩) =
      .ok (freshInfo (oracle i) (s.servo_ids.get ⟨i, h1⟩))
    ∧ (s.update oracle).infos.get? i =
      some (freshInfo (oracle i) (s.servo_ids.get ⟨i, h1⟩)) :=
  ⟨read_servo_info_eq _ _, update_get? s oracle i h1 h2⟩

theorem update_refresh_per_field_defaults_witness :
    read_servo_info failAll 1 = .ok (freshInfo failAll 1)
    ∧ (staleState.update (fun _ => failAll)).infos.get? 0 = some (freshInfo failAll 1) :=
  update_refresh_per_field_defaults staleState (fun _ => failAll) 0 (by decide) (by decide)

/-- C10: after any telemetry refresh, every configured actuator's cache
entry has goal_position equal to its position field — the goal cached by a
previous absolute or relative move is overwritten by the freshly read
position. -/
theorem update_overwrites_goal_with_position (s : ServoState) (oracle : Nat → RegisterReads)
    (i : Nat) (h1 : i < s.servo_ids.length) (h2 : i < s.infos.length) :
    ∃ info, (s.update oracle).infos.get? i = some info
      ∧ info.goal_position = info.position :=
  ⟨freshInfo (oracle i) (s.servo_ids.get ⟨i, h1⟩), update_get? s oracle i h1 h2, rfl⟩

theorem update_overwrites_goal_with_position_witness :
    ∃ info, (staleState.update (fun _ => failAll)).infos.get? 0 = some info
      ∧ info.goal_position = info.position :=
  update_overwrites_goal_with_position staleState (fun _ => failAll) 0 (by decide) (by decide)

theorem relative_goal_arith (G : Nat) (delta : Int) :
    ((wrap_i16 (i16_of_u16 G + delta) % 4096).toNat : Int) = ((G : Int) + delta) % 4096
    ∧ (wrap_i16 (i16_of_u16 G + delta) % 4096).toNat < 4096 := by
  unfold wrap_i16 i16_of_u16
  constructor <;> split <;> omega

/-- C5: a relative move replaces the cached goal position of the selected
actuator by (cached goal + delta) taken with the always-nonnegative
remainder mod 4096 — computed from the cached goal, not the measured
position — and, concretely, starting from goal 100 (measured position 555)
the deltas -90, -20, +20 give the goal sequence 100, 10, 4086, 10. -/
theorem relative_move_wraps_mod_4096 :
    (∀ (s : ServoState) (idx : Nat) (delta : Int) (speed acc : Option Nat) (info : ServoInfo)
        (s2 : ServoState) (r : Except ServoError Unit),
        s.infos.get? idx = some info → info.goal_position < 65536 →
        s.send_relative_move_command idx delta speed acc = some (s2, r) →
        ∃ info2, s2.infos.get? idx = some info2
          ∧ (info2.goal_position : Int) = ((info.goal_position : Int) + delta) % 4096
          ∧ info2.goal_position < 4096)
    ∧ (s100.infos.getD 0 {}).goal_position = 100
    ∧ ((relStep s100 (-90)).infos.getD 0 {}).goal_position = 10
    ∧ ((relStep (relStep s100 (-90)) (-20)).infos.getD 0 {}).goal_position = 4086
    ∧ ((relStep (relStep (relStep s100 (-90)) (-20)) 20).infos.getD 0 {}).goal_position = 10 := by
  refine ⟨?_, by decide, by decide, by decide, by decide⟩
  intro s idx delta speed acc info s2 r hinfo hlt hsend
  have hidx : idx < s.infos.length := (List.get?_eq_some.mp hinfo).1
  cases hid : s.servo_ids.get? idx with
  | none =>
      simp only [ServoState.send_relative_move_command, hid, hinfo] at hsend
      exact Option.noConfusion hsend
  | some sid =>
      simp only [ServoState.send_relative_move_command, hid, hinfo] at hsend
      have hset : s2.infos = s.infos.set idx { info with goal_position :=
          (wrap_i16 (i16_of_u16 info.goal_position + delta) % 4096).toNat } := by
        by_cases hq : s.queued_commands.length < s.queue_capacity
        · rw [if_pos hq] at hsend
          have hA : _ = s2 := congrArg Prod.fst (Option.some.inj hsend)
          rw [← hA]
        · rw [if_neg hq] at hsend
          have hA : _ = s2 := congrArg Prod.fst (Option.some.inj hsend)
          rw [← hA]
      refine ⟨{ info with goal_position :=
        (wrap_i16 (i16_of_u16 info.goal_position + delta) % 4096).toNat }, ?_,
        (relative_goal_arith info.goal_position delta).1,
        (relative_goal_arith info.goal_position delta).2⟩
      rw [hset, List.get?_eq_getElem?]
      exact List.getElem?_set_eq_of_lt _ hidx

theorem relative_move_wraps_mod_4096_witness :
    ∃ info2, s100b.infos.get? 0 = some info2
      ∧ (info2.goal_position : Int) = ((infoS100.goal_position : Int) + (-90)) % 4096
      ∧ info2.goal_position < 4096 :=
  relative_move_wraps_mod_4096.1 s100 0 (-90) none none infoS100 s100b (.ok ())
    rfl (by decide) (by decide)

/-- C6: process_queued_commands on an empty queue returns success without
flushing anything to the channel; on a non-empty queue it removes exactly
the most recently queued command (the queue tail, since enqueue appends at
the tail and Vec::pop removes from the tail), flushes exactly that command,
and the command stays removed whatever the reply: status 0 gives success,
a nonzero status gives StatusError(status) with the command still
discarded. -/
theorem process_pops_lifo_and_discards (s : ServoState)
    (port : ServoPositionCommand → Except ServoError Nat) :
    (s.queued_commands = [] → s.process_queued_commands port = (s, .ok (), []))
    ∧ ∀ q cmd, s.queued_commands = q ++ [cmd] →
        (s.process_queued_commands port).1.queued_commands = q
        ∧ (s.process_queued_commands port).2.2 = [cmd]
        ∧ (port cmd = .ok 0 → (s.process_queued_commands port).2.1 = .ok ())
        ∧ ∀ status, port cmd = .ok status → status ≠ 0 →
            (s.process_queued_commands port).2.1 = .error (.StatusError status) := by
  constructor
  · intro h
    simp [ServoState.process_queued_commands, h]
  · intro q cmd h
    have hl : s.queued_commands.getLast? = some cmd := by
      rw [h]; exact List.getLast?_concat ..
    have hd : s.queued_commands.dropLast = q := by
      rw [h]; exact List.dropLast_concat ..
    refine ⟨?_, ?_, ?_, ?_⟩
    · cases hp : port cmd with
      | error e => simp [ServoState.process_queued_commands, hl, hd, hp]
      | ok status =>
          by_cases h0 : status = 0 <;>
            simp [ServoState.process_queued_commands, hl, hd, hp, h0]
    · cases hp : port cmd with
      | error e => simp [ServoState.process_queued_commands, hl, hp]
      | ok status =>
          by_cases h0 : status = 0 <;>
            simp [ServoState.process_queued_commands, hl, hp, h0]
    · intro hp
      simp [ServoState.process_queued_commands, hl, hp]
    · intro status hp h0
      simp [ServoState.process_queued_commands, hl, hp, h0]

def cmdA : ServoPositionCommand := { id := 1, position := 10, speed := none, acc := none }

def cmdB : ServoPositionCommand := { id := 1, position := 20, speed := some 5, acc := none }

/-- One actuator with two queued commands, cmdB queued after cmdA. -/
def sQueued : ServoState :=
  { infos := [{ id := 1 }], servo_ids := [1], queue_capacity := 16,
    queued_commands := [cmdA, cmdB] }

/-- A channel whose reply always carries hardware status 5. -/
def portStatus5 : ServoPositionCommand → Except ServoError Nat := fun _ => .ok 5

theorem process_pops_lifo_and_discards_witness :
    (sQueued.process_queued_commands portStatus5).1.queued_commands = [cmdA]
    ∧ (sQueued.process_queued_commands portStatus5).2.2 = [cmdB]
    ∧ (sQueued.process_queued_commands portStatus5).2.1 = .error (.StatusError 5) := by
  have h := (process_pops_lifo_and_discards sQueued portStatus5).2 [cmdA] cmdB rfl
  exact ⟨h.1, h.2.1, h.2.2.2 5 rfl (by decide)⟩

/-- C7: with the queue at capacity, enqueueing a further move command —
absolute or relative — returns CommandOverflow and leaves the queue
untouched: same commands, same length, nothing dropped or replaced. -/
theorem enqueue_full_overflow_queue_unchanged (s : ServoState) (idx position : Nat)
    (delta : Int) (speed acc : Option Nat)
    (hfull : s.queued_commands.length = s.queue_capacity) :
    (∀ s2 r, s.send_absolute_move_command idx position speed acc = some (s2, r) →
        r = .error .CommandOverflow ∧ s2.queued_commands = s.queued_commands)
    ∧ ∀ s2 r, s.send_relative_move_command idx delta speed acc = some (s2, r) →
        r = .error .CommandOverflow ∧ s2.queued_commands = s.queued_commands := by
  have hq : ¬ s.queued_commands.length < s.queue_capacity := by omega
  constructor
  · intro s2 r hsend
    cases hid : s.servo_ids.get? idx with
    | none =>
        simp only [ServoState.send_absolute_move_command, hid] at hsend
        exact Option.noConfusion hsend
    | some sid =>
        cases hinf : s.infos.get? idx with
        | none =>
            simp only [ServoState.send_absolute_move_command, hid, hinf] at hsend
            exact Option.noConfusion hsend
        | some info =>
            simp only [ServoState.send_absolute_move_command, hid, hinf] at hsend
            rw [if_neg hq] at hsend
            have hp := Option.some.inj hsend
            have hs : _ = s2 := congrArg Prod.fst hp
            have hr : _ = r := congrArg Prod.snd hp
            exact ⟨hr.symm, by rw [← hs]⟩
  · intro s2 r hsend
    cases hid : s.servo_ids.get? idx with
    | none =>
        simp only [ServoState.send_relative_move_command, hid] at hsend
        exact Option.noConfusion hsend
    | some sid =>
        cases hinf : s.infos.get? idx with
        | none =>
            simp only [ServoState.send_relative_move_command, hid, hinf] at hsend
            exact Option.noConfusion hsend
        | some info =>
            simp only [ServoState.send_relative_move_command, hid, hinf] at hsend
            rw [if_neg hq] at hsend
            have hp := Option.some.inj hsend
            have hs : _ = s2 := congrArg Prod.fst hp
            have hr : _ = r := congrArg Prod.snd hp
            exact ⟨hr.symm, by rw [← hs]⟩

/-- One actuator, queue capacity 1, already holding one command. -/
def sFull : ServoState :=
  { infos := [{ id := 1, goal_position := 50 }], servo_ids := [1], queue_capacity := 1,
    queued_commands := [cmdA] }

/-- sFull after the rejected absolute move (goal cache updated to 77,
queue unchanged). -/
def sFullAbs : ServoState :=
  { infos := [{ id := 1, goal_position := 77 }], servo_ids := [1], queue_capacity := 1,
    queued_commands := [cmdA] }

/-- sFull after the rejected relative move by +5 (goal cache updated to 55,
queue unchanged). -/
def sFullRel : ServoState :=
  { infos := [{ id := 1, goal_position := 55 }], servo_ids := [1], queue_capacity := 1,
    queued_commands := [cmdA] }

theorem enqueue_full_overflow_queue_unchanged_witness :
    ((.error .CommandOverflow : Except ServoError Unit) = .error .CommandOverflow
      ∧ sFullAbs.queued_commands = sFull.queued_commands)
    ∧ ((.error .CommandOverflow : Except ServoError Unit) = .error .CommandOverflow
      ∧ sFullRel.queued_commands = sFull.queued_commands) :=
  ⟨(enqueue_full_overflow_queue_unchanged sFull 0 77 5 none none rfl).1
      sFullAbs (.error .CommandOverflow) (by decide),
   (enqueue_full_overflow_queue_unchanged sFull 0 77 5 none none rfl).2
      sFullRel (.error .CommandOverflow) (by decide)⟩

end Sts3215
